import Mathlib

/-!
Verification of the authentication core of the patient-record service
(`app/utils/security.py`, `app/core/auth_backend.py`, `app/core/config.py`,
`app/crud_user.py`).

The embedding is shallow: Python functions become Lean functions, Python
exceptions become `Except` values, the process-wide `settings` singleton
becomes an explicit `Settings` argument, and wall-clock time becomes an
explicit `now : Int` argument (seconds since the epoch, matching the integer
timestamps that end up in token payloads).
-/

/-- A Python exception, as far as the modelled code distinguishes them:
either a generic exception (caught by bare `except Exception` blocks) or a
`NotImplementedError` (raised by the unimplemented Azure B2C backend). -/
inductive PyError
  | exc
  | notImplementedError
deriving DecidableEq

/-! ## Password hashing (`app/utils/security.py`, passlib `CryptContext`)

`pwd_context = CryptContext(schemes=["bcrypt"], deprecated="auto")`.
A stored hash string is modelled abstractly: a well-formed bcrypt hash
records which password it is a hash of and its cost parameter (bcrypt is
deterministic once the salt is fixed, and the salt plays no role in any
claim); any other stored string is `raw` and is unrecognisable to passlib. -/

/-- The cost parameter passlib uses for a freshly produced bcrypt hash under
its default configuration. -/
def defaultRounds : Nat := 12

/-- A stored password hash: either a bcrypt hash of `pw` produced with the
given cost parameter, or an arbitrary non-bcrypt string (for example a
legacy-scheme value such as `LEGACY:pw` from the repository's tests). -/
inductive StoredHash
  | bcrypt (pw : String) (rounds : Nat)
  | raw (s : String)
deriving DecidableEq

/-- Modelled passlib `pwd_context.verify`: succeeds with the comparison
outcome on a well-formed bcrypt hash, raises (`UnknownHashError`) on a string
that no configured scheme recognises. -/
def pwd_context_verify (plain : String) (stored : StoredHash) : Except PyError Bool :=
  match stored with
  | .bcrypt pw _ => .ok (plain == pw)
  | .raw _ => .error .exc

/-- Modelled passlib `pwd_context.needs_update`: a recognised bcrypt hash
needs an update exactly when its parameters differ from the context's current
defaults; an unrecognised string raises. -/
def pwd_context_needs_update (stored : StoredHash) : Except PyError Bool :=
  match stored with
  | .bcrypt _ rounds => .ok (rounds != defaultRounds)
  | .raw _ => .error .exc

/-- `hash_password` from `app/utils/security.py`: `pwd_context.hash`, a fresh
bcrypt hash under the context's default parameters. -/
def hash_password (plain_password : String) : StoredHash :=
  StoredHash.bcrypt plain_password defaultRounds

/-- The type of the optional `legacy_verify` callable passed to
`verify_password`. It is Python code supplied by the caller, so it may raise:
its result is an `Except`. -/
def LegacyVerify : Type := String → StoredHash → Except PyError Bool

/-- The `try/except` block at the top of `verify_password`: attempt the
current scheme, and treat any exception as a failed verification. -/
def current_scheme_valid (plain_password : String) (stored_hash : StoredHash) : Bool :=
  match pwd_context_verify plain_password stored_hash with
  | .ok v => v
  | .error _ => false

/-- `verify_password` from `app/utils/security.py`. The current-scheme
attempt and the legacy attempt are each wrapped in `try/except`, so their
exceptions are swallowed; the `pwd_context.needs_update` call on the success
path is NOT wrapped, so an exception there would propagate (hence the
`Except` result type). -/
def verify_password (plain_password : String) (stored_hash : StoredHash)
    (legacy_verify : Option LegacyVerify) : Except PyError (Bool × Bool) :=
  let valid := current_scheme_valid plain_password stored_hash
  if valid then
    match pwd_context_needs_update stored_hash with
    | .ok should_rehash => .ok (true, should_rehash)
    | .error e => .error e
  else
    match legacy_verify with
    | some lv =>
      let legacy_ok :=
        match lv plain_password stored_hash with
        | .ok v => v
        | .error _ => false
      if legacy_ok then .ok (true, true) else .ok (false, false)
    | none => .ok (false, false)

/-! ### Helper lemmas for the password layer -/

theorem current_scheme_valid_bcrypt (plain pw : String) (r : Nat) :
    current_scheme_valid plain (StoredHash.bcrypt pw r) = (plain == pw) := rfl

theorem current_scheme_valid_raw (plain s : String) :
    current_scheme_valid plain (StoredHash.raw s) = false := rfl

/-- `verify_password` always returns a value: the only unguarded call,
`pwd_context.needs_update`, is reached only after the current scheme
recognised the stored hash, and on recognised hashes it does not raise. -/
theorem verify_password_isOk (plain : String) (stored : StoredHash)
    (lv : Option LegacyVerify) :
    ∃ r, verify_password plain stored lv = Except.ok r := by
  unfold verify_password
  by_cases hv : current_scheme_valid plain stored = true
  · cases stored with
    | bcrypt pw r =>
      simp only [hv, if_pos, pwd_context_needs_update]
      exact ⟨_, rfl⟩
    | raw s => simp [current_scheme_valid_raw] at hv
  · simp only [Bool.not_eq_true] at hv
    simp only [hv, Bool.false_eq_true, if_false]
    cases lv with
    | none => exact ⟨_, rfl⟩
    | some f =>
      simp only
      by_cases hl : (match f plain stored with | .ok v => v | .error _ => false) = true
      · exact ⟨_, by rw [if_pos hl]⟩
      · simp only [Bool.not_eq_true] at hl
        exact ⟨_, by rw [hl, if_neg (by simp)]⟩

/-- C2: for every secret `s`, verifying `s` against a hash of `s` freshly
produced by `hash_password` succeeds, and the rehash flag is false because a
fresh hash carries the current scheme's default parameters. -/
theorem verify_of_hash_self (s : String) :
    verify_password s (hash_password s) none = Except.ok (true, false) := by
  unfold verify_password hash_password
  simp [current_scheme_valid_bcrypt, pwd_context_needs_update, defaultRounds]

/-- C6: for distinct secrets `s1 ≠ s2`, verifying `s1` against a hash of `s2`
(with no legacy check supplied) fails with `(false, false)`. -/
theorem verify_of_hash_other (s1 s2 : String) (h : s1 ≠ s2) :
    verify_password s1 (hash_password s2) none = Except.ok (false, false) := by
  unfold verify_password hash_password
  simp [current_scheme_valid_bcrypt, h]

/-- Witness for `verify_of_hash_other` at concrete distinct secrets. -/
theorem verify_of_hash_other_witness :
    ("alice-pw" : String) ≠ "bob-pw" ∧
      verify_password "alice-pw" (hash_password "bob-pw") none
        = Except.ok (false, false) :=
  ⟨by decide, verify_of_hash_other "alice-pw" "bob-pw" (by decide)⟩

/-- C4: when the current-scheme check fails and a legacy check is supplied,
`verify_password` returns `(true, true)` (forcing a rehash) if the legacy
check returns true, and `(false, false)` if it returns false. -/
theorem verify_password_legacy_path (plain : String) (stored : StoredHash)
    (f : LegacyVerify) (h : current_scheme_valid plain stored = false) :
    (f plain stored = Except.ok true →
        verify_password plain stored (some f) = Except.ok (true, true)) ∧
    (f plain stored = Except.ok false →
        verify_password plain stored (some f) = Except.ok (false, false)) := by
  constructor
  · intro hf
    unfold verify_password
    simp [h, hf]
  · intro hf
    unfold verify_password
    simp [h, hf]

/-- Witness for `verify_password_legacy_path`: the legacy format from the
repository's tests (`LEGACY:` followed by the plaintext). -/
theorem verify_password_legacy_path_witness :
    current_scheme_valid "old-password" (StoredHash.raw "LEGACY:old-password") = false ∧
      verify_password "old-password" (StoredHash.raw "LEGACY:old-password")
        (some (fun p st => Except.ok (st == StoredHash.raw ("LEGACY:" ++ p))))
        = Except.ok (true, true) :=
  ⟨rfl,
    (verify_password_legacy_path "old-password" (StoredHash.raw "LEGACY:old-password")
      (fun p st => Except.ok (st == StoredHash.raw ("LEGACY:" ++ p))) rfl).1 rfl⟩

/-- C5: `verify_password` never raises: it always returns a value, an
exception in the current-scheme attempt only yields `valid = false`, and an
exception in the legacy attempt yields the `(false, false)` outcome. -/
theorem verify_password_no_exceptions (plain : String) (stored : StoredHash)
    (lv : Option LegacyVerify) :
    (∃ r, verify_password plain stored lv = Except.ok r) ∧
    (∀ e, pwd_context_verify plain stored = Except.error e →
        current_scheme_valid plain stored = false) ∧
    (current_scheme_valid plain stored = false →
      (lv = none → verify_password plain stored lv = Except.ok (false, false)) ∧
      (∀ f e, lv = some f → f plain stored = Except.error e →
          verify_password plain stored lv = Except.ok (false, false))) := by
  refine ⟨verify_password_isOk plain stored lv, ?_, ?_⟩
  · intro e he
    unfold current_scheme_valid
    rw [he]
  · intro h
    constructor
    · intro hnone
      subst hnone
      unfold verify_password
      simp [h]
    · intro f e hf he
      subst hf
      unfold verify_password
      simp [h, he]

/-- Witness for `verify_password_no_exceptions`: a stored value no scheme
recognises and a legacy callable that itself raises; the outcome is the
failure pair, not an exception. -/
theorem verify_password_no_exceptions_witness :
    pwd_context_verify "x" (StoredHash.raw "junk") = Except.error PyError.exc ∧
      verify_password "x" (StoredHash.raw "junk")
        (some (fun _ _ => Except.error PyError.exc)) = Except.ok (false, false) :=
  ⟨rfl,
    ((verify_password_no_exceptions "x" (StoredHash.raw "junk")
          (some (fun _ _ => Except.error PyError.exc))).2.2
        rfl).2 (fun _ _ => Except.error PyError.exc) PyError.exc rfl rfl⟩

/-! ## Claims mappings and configuration

A JWT payload is a Python dict from claim names to JSON values. Only the
value shapes the modelled code produces or inspects occur: strings and
integers (timestamps are encoded as integer epoch seconds by the JWT
library). The dict is modelled as an association list where the most recent
binding for a key wins, so `Claims.set` is Python's `d[k] = v` as far as
lookups are concerned. -/

/-- A claim value: a JSON string or integer. -/
inductive ClaimVal
  | str (s : String)
  | int (n : Int)
deriving DecidableEq

/-- Python `str(...)` on a claim value (used for the `sub` coercion). -/
def ClaimVal.pyStr : ClaimVal → String
  | .str s => s
  | .int n => toString n

/-- Python `int(...)` on a claim value, as the jose claim validators apply
it: an integer is returned as is, a string is parsed and raises `ValueError`
(here `none`) when unparsable. -/
def ClaimVal.pyInt : ClaimVal → Option Int
  | .int n => some n
  | .str s => s.toInt?

/-- A claims mapping (Python dict): association list, leftmost binding wins. -/
def Claims : Type := List (String × ClaimVal)

/-- Dict lookup. -/
def Claims.get : Claims → String → Option ClaimVal
  | [], _ => none
  | (k, v) :: rest, key => if key = k then some v else Claims.get rest key

/-- Dict update `d[k] = v`: the new binding shadows any previous one. -/
def Claims.set (c : Claims) (key : String) (v : ClaimVal) : Claims :=
  (key, v) :: c

theorem Claims.get_set (c : Claims) (k : String) (v : ClaimVal) (k1 : String) :
    (c.set k v).get k1 = if k1 = k then some v else c.get k1 := rfl

theorem Claims.get_set_isSome (c : Claims) (k : String) (v : ClaimVal)
    (k1 : String) (h : (c.get k1).isSome = true) :
    ((c.set k v).get k1).isSome = true := by
  rw [Claims.get_set]
  by_cases hk : k1 = k <;> simp [hk, h]

/-- The pydantic `Settings` object from `app/core/config.py`. -/
structure Settings where
  SECRET_KEY : String
  ALGORITHM : String
  ACCESS_TOKEN_EXPIRE_MINUTES : Int
  JWT_ISSUER : Option String
  JWT_AUDIENCE : Option String
deriving DecidableEq

/-- The default `Settings()` values from `app/core/config.py` (no environment
overrides): HS256, 30-minute TTL, no issuer, no audience. -/
def defaultSettings : Settings :=
  Settings.mk "change-me-in-prod-very-secret-and-long-string" "HS256" 30 none none

/-- Python truthiness of an optional string, as used by
`if settings.JWT_ISSUER:` and `bool(settings.JWT_AUDIENCE)`: `None` and the
empty string are falsy. -/
def pyTruthy : Option String → Bool
  | none => false
  | some s => s != ""

/-! ## The jose JWT library (`from jose import jwt`)

`jwt.encode` serialises and signs the claims; signing is modelled abstractly
by recording the payload together with the key and algorithm used, and
signature verification as equality of key and membership of the algorithm in
the allowed list. `jwt.decode` is modelled after python-jose 3.x
`jose/jwt.py`: signature verification followed by `_validate_claims`, which
runs the individual claim validators in order (iat, nbf, exp, aud, iss, sub,
jti, at_hash); the `options` dict passed by the service only overrides
`verify_aud`, every other validator stays enabled by default. -/

/-- A signed token: the claim set plus the signing key and algorithm the
signature commits to. -/
structure Token where
  payload : Claims
  key : String
  alg : String

/-- A python-jose exception as `decode_access_token` distinguishes them:
`ExpiredSignatureError`, or any other `JWTError`. -/
inductive JoseError
  | expiredSignature
  | jwtError
deriving DecidableEq

/-- `jose.jwt.encode`. -/
def jwt_encode (claims : Claims) (key : String) (algorithm : String) : Token :=
  Token.mk claims key algorithm

/-- jose `_validate_iat`: if present, `iat` must parse as an integer. -/
def validate_iat (claims : Claims) : Except JoseError Unit :=
  match claims.get "iat" with
  | none => .ok ()
  | some v =>
    match v.pyInt with
    | some _ => .ok ()
    | none => .error .jwtError

/-- jose `_validate_nbf`: if present, `nbf` must parse as an integer and must
not lie in the future. -/
def validate_nbf (claims : Claims) (now : Int) : Except JoseError Unit :=
  match claims.get "nbf" with
  | none => .ok ()
  | some v =>
    match v.pyInt with
    | some nbf => if nbf > now then .error .jwtError else .ok ()
    | none => .error .jwtError

/-- jose `_validate_exp`: if present, `exp` must parse as an integer; the
token is expired (`ExpiredSignatureError`) exactly when `exp < now`. -/
def validate_exp (claims : Claims) (now : Int) : Except JoseError Unit :=
  match claims.get "exp" with
  | none => .ok ()
  | some v =>
    match v.pyInt with
    | some e => if e < now then .error .expiredSignature else .ok ()
    | none => .error .jwtError

/-- jose `_validate_aud`: when the `aud` claim is ABSENT the validator
returns silently even if an audience was expected (the raise for that case
is commented out in the library); a present claim must be a string equal to
the expected audience. -/
def validate_aud (claims : Claims) (audience : Option String) : Except JoseError Unit :=
  match claims.get "aud" with
  | none => .ok ()
  | some (.str a) => if audience = some a then .ok () else .error .jwtError
  | some (.int _) => .error .jwtError

/-- jose `_validate_iss`: checked only when an expected issuer is supplied;
the claim must then be present and equal to it. -/
def validate_iss (claims : Claims) (issuer : Option String) : Except JoseError Unit :=
  match issuer with
  | none => .ok ()
  | some iss =>
    match claims.get "iss" with
    | some (.str i) => if i = iss then .ok () else .error .jwtError
    | _ => .error .jwtError

/-- jose `_validate_sub`: if present, `sub` must be a string. -/
def validate_sub (claims : Claims) : Except JoseError Unit :=
  match claims.get "sub" with
  | none => .ok ()
  | some (.str _) => .ok ()
  | some (.int _) => .error .jwtError

/-- jose `_validate_jti`: if present, `jti` must be a string. -/
def validate_jti (claims : Claims) : Except JoseError Unit :=
  match claims.get "jti" with
  | none => .ok ()
  | some (.str _) => .ok ()
  | some (.int _) => .error .jwtError

/-- jose `_validate_at_hash`: the service never passes an `access_token` to
compare against, so a present `at_hash` claim always fails. -/
def validate_at_hash (claims : Claims) : Except JoseError Unit :=
  match claims.get "at_hash" with
  | none => .ok ()
  | some _ => .error .jwtError

/-- Sequencing of jose validators: run the check, then continue. -/
def andThen (a : Except JoseError Unit) (b : Except JoseError Claims) :
    Except JoseError Claims :=
  match a with
  | .ok _ => b
  | .error e => .error e

theorem andThen_ok (u : Unit) (b : Except JoseError Claims) :
    andThen (Except.ok u) b = b := rfl

theorem andThen_error (e : JoseError) (b : Except JoseError Claims) :
    andThen (Except.error e) b = Except.error e := rfl

/-- `jose.jwt.decode`: verify the signature (key and allowed algorithm),
then run the claim validators in library order; `verify_aud` is the only
option the service overrides. -/
def jwt_decode (token : Token) (key : String) (algorithms : List String)
    (audience : Option String) (issuer : Option String) (verify_aud : Bool)
    (now : Int) : Except JoseError Claims :=
  if token.key = key ∧ token.alg ∈ algorithms then
    andThen (validate_iat token.payload) <|
    andThen (validate_nbf token.payload now) <|
    andThen (validate_exp token.payload now) <|
    andThen (if verify_aud then validate_aud token.payload audience else .ok ()) <|
    andThen (validate_iss token.payload issuer) <|
    andThen (validate_sub token.payload) <|
    andThen (validate_jti token.payload) <|
    andThen (validate_at_hash token.payload) <|
    .ok token.payload
  else
    .error .jwtError

/-- `create_access_token` from `app/utils/security.py`: copy the claims,
coerce `sub` to a string, add `exp`/`iat` (with the TTL defaulting to
`settings.ACCESS_TOKEN_EXPIRE_MINUTES`, in seconds here), add `iss`/`aud`
when configured, and sign. `now` is the current UTC time in epoch seconds;
`expires_delta` is the optional TTL in seconds. -/
def create_access_token (s : Settings) (now : Int) (data : Claims)
    (expires_delta : Option Int) : Token :=
  let to_encode := data
  let to_encode :=
    match to_encode.get "sub" with
    | some v => to_encode.set "sub" (ClaimVal.str v.pyStr)
    | none => to_encode
  let delta := expires_delta.getD (60 * s.ACCESS_TOKEN_EXPIRE_MINUTES)
  let expire := now + delta
  let to_encode := (to_encode.set "exp" (ClaimVal.int expire)).set "iat" (ClaimVal.int now)
  let to_encode :=
    if pyTruthy s.JWT_ISSUER then to_encode.set "iss" (ClaimVal.str (s.JWT_ISSUER.getD ""))
    else to_encode
  let to_encode :=
    if pyTruthy s.JWT_AUDIENCE then to_encode.set "aud" (ClaimVal.str (s.JWT_AUDIENCE.getD ""))
    else to_encode
  jwt_encode to_encode s.SECRET_KEY s.ALGORITHM

/-- `TokenDecodeError` from `app/utils/security.py`: the single error class
`decode_access_token` raises; `expired` carries the message "token expired",
`invalid` the message "invalid token or claims". -/
inductive TokenDecodeError
  | expired
  | invalid
deriving DecidableEq

/-- `decode_access_token` from `app/utils/security.py`: call `jwt.decode`
with the configured key/algorithm, the audience and issuer when truthy, and
`verify_aud` set to the audience's truthiness; re-raise jose failures as
`TokenDecodeError`. -/
def decode_access_token (s : Settings) (now : Int) (token : Token) :
    Except TokenDecodeError Claims :=
  match jwt_decode token s.SECRET_KEY [s.ALGORITHM]
      (if pyTruthy s.JWT_AUDIENCE then s.JWT_AUDIENCE else none)
      (if pyTruthy s.JWT_ISSUER then s.JWT_ISSUER else none)
      (pyTruthy s.JWT_AUDIENCE) now with
  | .ok payload => .ok payload
  | .error .expiredSignature => .error .expired
  | .error .jwtError => .error .invalid

/-! ### Inversion and introduction for `jwt_decode` -/

theorem jwt_decode_ok_inv (t : Token) (key : String) (algorithms : List String)
    (audience : Option String) (issuer : Option String) (verify_aud : Bool)
    (now : Int) (p : Claims)
    (h : jwt_decode t key algorithms audience issuer verify_aud now = Except.ok p) :
    p = t.payload ∧ t.key = key ∧ t.alg ∈ algorithms ∧
      validate_iat t.payload = Except.ok () ∧
      validate_nbf t.payload now = Except.ok () ∧
      validate_exp t.payload now = Except.ok () ∧
      (verify_aud = true → validate_aud t.payload audience = Except.ok ()) ∧
      validate_iss t.payload issuer = Except.ok () ∧
      validate_sub t.payload = Except.ok () ∧
      validate_jti t.payload = Except.ok () ∧
      validate_at_hash t.payload = Except.ok () := by
  unfold jwt_decode at h
  by_cases hc : t.key = key ∧ t.alg ∈ algorithms
  · rw [if_pos hc] at h
    cases h1 : validate_iat t.payload with
    | error e => rw [h1, andThen_error] at h; exact absurd h (by simp)
    | ok u =>
      rw [h1, andThen_ok] at h
      cases h2 : validate_nbf t.payload now with
      | error e => rw [h2, andThen_error] at h; exact absurd h (by simp)
      | ok u =>
        rw [h2, andThen_ok] at h
        cases h3 : validate_exp t.payload now with
        | error e => rw [h3, andThen_error] at h; exact absurd h (by simp)
        | ok u =>
          rw [h3, andThen_ok] at h
          cases h4 : (if verify_aud then validate_aud t.payload audience
              else Except.ok ()) with
          | error e => rw [h4, andThen_error] at h; exact absurd h (by simp)
          | ok u =>
            rw [h4, andThen_ok] at h
            cases h5 : validate_iss t.payload issuer with
            | error e => rw [h5, andThen_error] at h; exact absurd h (by simp)
            | ok u =>
              rw [h5, andThen_ok] at h
              cases h6 : validate_sub t.payload with
              | error e => rw [h6, andThen_error] at h; exact absurd h (by simp)
              | ok u =>
                rw [h6, andThen_ok] at h
                cases h7 : validate_jti t.payload with
                | error e => rw [h7, andThen_error] at h; exact absurd h (by simp)
                | ok u =>
                  rw [h7, andThen_ok] at h
                  cases h8 : validate_at_hash t.payload with
                  | error e => rw [h8, andThen_error] at h; exact absurd h (by simp)
                  | ok u =>
                    rw [h8, andThen_ok] at h
                    refine ⟨?_, hc.1, hc.2, rfl, rfl, rfl, ?_, rfl, rfl, rfl, rfl⟩
                    · injection h with h
                      exact h.symm
                    · intro hva
                      rw [hva] at h4
                      simpa using h4
  · rw [if_neg hc] at h
    exact absurd h (by simp)

theorem jwt_decode_ok_intro (t : Token) (key : String) (algorithms : List String)
    (audience : Option String) (issuer : Option String) (verify_aud : Bool)
    (now : Int)
    (hkey : t.key = key) (halg : t.alg ∈ algorithms)
    (h1 : validate_iat t.payload = Except.ok ())
    (h2 : validate_nbf t.payload now = Except.ok ())
    (h3 : validate_exp t.payload now = Except.ok ())
    (h4 : verify_aud = true → validate_aud t.payload audience = Except.ok ())
    (h5 : validate_iss t.payload issuer = Except.ok ())
    (h6 : validate_sub t.payload = Except.ok ())
    (h7 : validate_jti t.payload = Except.ok ())
    (h8 : validate_at_hash t.payload = Except.ok ()) :
    jwt_decode t key algorithms audience issuer verify_aud now
      = Except.ok t.payload := by
  unfold jwt_decode
  rw [if_pos ⟨hkey, halg⟩, h1, andThen_ok, h2, andThen_ok, h3, andThen_ok]
  have h4a : (if verify_aud then validate_aud t.payload audience else Except.ok ())
      = Except.ok () := by
    cases hva : verify_aud with
    | true => simpa using h4 hva
    | false => simp
  rw [h4a, andThen_ok, h5, andThen_ok, h6, andThen_ok, h7, andThen_ok, h8, andThen_ok]

/-! ### What `create_access_token` puts in the payload -/

theorem jwt_encode_payload (c : Claims) (k a : String) :
    (jwt_encode c k a).payload = c := rfl

theorem create_payload_get_exp (s : Settings) (now : Int) (data : Claims)
    (ed : Option Int) :
    (create_access_token s now data ed).payload.get "exp"
      = some (ClaimVal.int (now + ed.getD (60 * s.ACCESS_TOKEN_EXPIRE_MINUTES))) := by
  unfold create_access_token
  simp only [jwt_encode_payload]
  split <;> split <;> simp [Claims.get_set]

theorem create_payload_get_iat (s : Settings) (now : Int) (data : Claims)
    (ed : Option Int) :
    (create_access_token s now data ed).payload.get "iat"
      = some (ClaimVal.int now) := by
  unfold create_access_token
  simp only [jwt_encode_payload]
  split <;> split <;> simp [Claims.get_set]

theorem create_payload_get_iss (s : Settings) (now : Int) (data : Claims)
    (ed : Option Int) (h : pyTruthy s.JWT_ISSUER = true) :
    (create_access_token s now data ed).payload.get "iss"
      = some (ClaimVal.str (s.JWT_ISSUER.getD "")) := by
  unfold create_access_token
  simp only [jwt_encode_payload, h]
  split <;> simp [Claims.get_set]

theorem create_payload_get_aud (s : Settings) (now : Int) (data : Claims)
    (ed : Option Int) (h : pyTruthy s.JWT_AUDIENCE = true) :
    (create_access_token s now data ed).payload.get "aud"
      = some (ClaimVal.str (s.JWT_AUDIENCE.getD "")) := by
  unfold create_access_token
  simp only [jwt_encode_payload, h]
  simp [Claims.get_set]

theorem create_payload_get_sub (s : Settings) (now : Int) (data : Claims)
    (ed : Option Int) :
    (create_access_token s now data ed).payload.get "sub"
      = (data.get "sub").map (fun v => ClaimVal.str v.pyStr) := by
  unfold create_access_token
  simp only [jwt_encode_payload]
  split <;> split <;>
    cases hs : data.get "sub" <;> simp [hs, Claims.get_set]

theorem create_payload_get_other (s : Settings) (now : Int) (data : Claims)
    (ed : Option Int) (k : String) (h1 : k ≠ "sub") (h2 : k ≠ "exp")
    (h3 : k ≠ "iat") (h4 : k ≠ "iss") (h5 : k ≠ "aud") :
    (create_access_token s now data ed).payload.get k = data.get k := by
  unfold create_access_token
  simp only [jwt_encode_payload]
  split <;> split <;>
    cases hs : data.get "sub" <;> simp [hs, Claims.get_set, h1, h2, h3, h4, h5]

theorem create_payload_get_iss_not (s : Settings) (now : Int) (data : Claims)
    (ed : Option Int) (h : pyTruthy s.JWT_ISSUER = false) :
    (create_access_token s now data ed).payload.get "iss" = data.get "iss" := by
  unfold create_access_token
  simp only [jwt_encode_payload]
  split <;> split <;> cases hs : data.get "sub" <;> simp_all [Claims.get_set]

theorem create_payload_get_aud_not (s : Settings) (now : Int) (data : Claims)
    (ed : Option Int) (h : pyTruthy s.JWT_AUDIENCE = false) :
    (create_access_token s now data ed).payload.get "aud" = data.get "aud" := by
  unfold create_access_token
  simp only [jwt_encode_payload]
  split <;> split <;> cases hs : data.get "sub" <;> simp_all [Claims.get_set]

theorem create_payload_mono (s : Settings) (now : Int) (data : Claims)
    (ed : Option Int) (k : String) (h : (data.get k).isSome = true) :
    ((create_access_token s now data ed).payload.get k).isSome = true := by
  by_cases h1 : k = "sub"
  · subst h1
    rw [create_payload_get_sub]
    simp_all
  · by_cases h2 : k = "exp"
    · subst h2; rw [create_payload_get_exp]; rfl
    · by_cases h3 : k = "iat"
      · subst h3; rw [create_payload_get_iat]; rfl
      · by_cases h4 : k = "iss"
        · subst h4
          cases hi : pyTruthy s.JWT_ISSUER with
          | true => rw [create_payload_get_iss s now data ed hi]; rfl
          | false => rw [create_payload_get_iss_not s now data ed hi]; exact h
        · by_cases h5 : k = "aud"
          · subst h5
            cases ha : pyTruthy s.JWT_AUDIENCE with
            | true => rw [create_payload_get_aud s now data ed ha]; rfl
            | false => rw [create_payload_get_aud_not s now data ed ha]; exact h
          · rw [create_payload_get_other s now data ed k h1 h2 h3 h4 h5]
            exact h

theorem pyTruthy_some (o : Option String) (h : pyTruthy o = true) :
    o = some (o.getD "") := by
  cases o with
  | none => simp [pyTruthy] at h
  | some v => rfl

/-- C1 (amended): issue-then-validate round-trip. For every claims mapping
that does not carry an `nbf` claim, a non-string `jti` claim, or an
`at_hash` claim (all of which the jose claim validators would reject at
decode time), and for every nonnegative requested TTL (defaulting to the
configured `ACCESS_TOKEN_EXPIRE_MINUTES`), decoding right after issuing
succeeds and returns a mapping that contains every key of the input claims,
with the `sub` value coerced to a string, plus `exp` and `iat` whose
difference is exactly the requested TTL. -/
theorem token_roundtrip (s : Settings) (now : Int) (data : Claims)
    (ed : Option Int)
    (httl : 0 ≤ ed.getD (60 * s.ACCESS_TOKEN_EXPIRE_MINUTES))
    (hnbf : data.get "nbf" = none)
    (hjti : ∀ v, data.get "jti" = some v → ∃ j, v = ClaimVal.str j)
    (hath : data.get "at_hash" = none) :
    ∃ p, decode_access_token s now (create_access_token s now data ed)
        = Except.ok p ∧
      (∀ k, (data.get k).isSome = true → (p.get k).isSome = true) ∧
      (∀ v, data.get "sub" = some v → p.get "sub" = some (ClaimVal.str v.pyStr)) ∧
      p.get "exp" = some (ClaimVal.int
        (now + ed.getD (60 * s.ACCESS_TOKEN_EXPIRE_MINUTES))) ∧
      p.get "iat" = some (ClaimVal.int now) := by
  set t := create_access_token s now data ed with ht
  have h1 : validate_iat t.payload = Except.ok () := by
    unfold validate_iat
    rw [ht, create_payload_get_iat]
    rfl
  have h2 : validate_nbf t.payload now = Except.ok () := by
    unfold validate_nbf
    rw [ht, create_payload_get_other s now data ed "nbf"
      (by decide) (by decide) (by decide) (by decide) (by decide), hnbf]
  have h3 : validate_exp t.payload now = Except.ok () := by
    unfold validate_exp
    rw [ht, create_payload_get_exp]
    simp only [ClaimVal.pyInt]
    rw [if_neg (by omega)]
  have h4 : pyTruthy s.JWT_AUDIENCE = true →
      validate_aud t.payload (if pyTruthy s.JWT_AUDIENCE then s.JWT_AUDIENCE else none)
        = Except.ok () := by
    intro hva
    obtain ⟨a, haud⟩ : ∃ a, s.JWT_AUDIENCE = some a :=
      ⟨_, pyTruthy_some s.JWT_AUDIENCE hva⟩
    unfold validate_aud
    rw [ht, create_payload_get_aud s now data ed hva, if_pos hva, haud]
    simp
  have h5 : validate_iss t.payload
      (if pyTruthy s.JWT_ISSUER then s.JWT_ISSUER else none) = Except.ok () := by
    cases hi : pyTruthy s.JWT_ISSUER with
    | false => simp [validate_iss]
    | true =>
      obtain ⟨i, hisz⟩ : ∃ i, s.JWT_ISSUER = some i :=
        ⟨_, pyTruthy_some s.JWT_ISSUER hi⟩
      have hti : pyTruthy (some i) = true := by rw [← hisz]; exact hi
      unfold validate_iss
      rw [ht, create_payload_get_iss s now data ed hi]
      rw [hisz]
      simp [hti]
  have h6 : validate_sub t.payload = Except.ok () := by
    unfold validate_sub
    rw [ht, create_payload_get_sub]
    cases data.get "sub" <;> rfl
  have h7 : validate_jti t.payload = Except.ok () := by
    unfold validate_jti
    rw [ht, create_payload_get_other s now data ed "jti"
      (by decide) (by decide) (by decide) (by decide) (by decide)]
    cases hj : data.get "jti" with
    | none => rfl
    | some v =>
      obtain ⟨j, rfl⟩ := hjti v hj
      rfl
  have h8 : validate_at_hash t.payload = Except.ok () := by
    unfold validate_at_hash
    rw [ht, create_payload_get_other s now data ed "at_hash"
      (by decide) (by decide) (by decide) (by decide) (by decide), hath]
  have hdec : jwt_decode t s.SECRET_KEY [s.ALGORITHM]
      (if pyTruthy s.JWT_AUDIENCE then s.JWT_AUDIENCE else none)
      (if pyTruthy s.JWT_ISSUER then s.JWT_ISSUER else none)
      (pyTruthy s.JWT_AUDIENCE) now = Except.ok t.payload := by
    refine jwt_decode_ok_intro t s.SECRET_KEY [s.ALGORITHM] _ _ _ now ?_ ?_
      h1 h2 h3 h4 h5 h6 h7 h8
    · rw [ht]; rfl
    · rw [ht]
      exact List.mem_singleton.mpr rfl
  refine ⟨t.payload, ?_, ?_, ?_, ?_, ?_⟩
  · unfold decode_access_token
    rw [hdec]
  · intro k hk
    rw [ht]
    exact create_payload_mono s now data ed k hk
  · intro v hv
    rw [ht, create_payload_get_sub, hv]
    rfl
  · rw [ht, create_payload_get_exp]
  · rw [ht, create_payload_get_iat]

/-- C1 counterexample to the claim as stated ("for every requested TTL"):
with a requested TTL of -60 seconds the issued token carries
`exp = now - 60 < now`, so validating immediately after issuing fails with
the expiry error instead of succeeding. -/
theorem token_roundtrip_counterexample :
    decode_access_token defaultSettings 0
      (create_access_token defaultSettings 0
        [("sub", ClaimVal.str "alice")] (some (-60)))
      = Except.error TokenDecodeError.expired := rfl

/-- The claims mapping of the spec's end-to-end scenario,
`{"sub": 42, "user_id": 123}`. -/
def roundtripData : Claims := [("sub", ClaimVal.int 42), ("user_id", ClaimVal.int 123)]

/-- Witness for `token_roundtrip` at the spec's own end-to-end scenario:
`issue({"sub": 42, "user_id": 123})` with the default TTL under the default
settings, validated at the same instant. -/
theorem token_roundtrip_witness :
    ∃ p, decode_access_token defaultSettings 0
        (create_access_token defaultSettings 0 roundtripData none)
        = Except.ok p ∧
      (∀ k, (roundtripData.get k).isSome = true → (p.get k).isSome = true) ∧
      (∀ v, roundtripData.get "sub" = some v
          → p.get "sub" = some (ClaimVal.str v.pyStr)) ∧
      p.get "exp" = some (ClaimVal.int
        (0 + (none : Option Int).getD (60 * defaultSettings.ACCESS_TOKEN_EXPIRE_MINUTES))) ∧
      p.get "iat" = some (ClaimVal.int 0) :=
  token_roundtrip defaultSettings 0 roundtripData none
    (by decide) rfl (fun v h => Option.noConfusion h) rfl

/-- C3: `decode_access_token` is fail-closed. Every outcome is either the
fully-validated payload (which requires the signature key and algorithm to
match the settings) or an error of the single `TokenDecodeError` class; no
partially-trusted payload is ever returned. The `expired` variant occurs
exactly when the underlying jose decode raised `ExpiredSignatureError`, and
the `invalid` variant exactly when it raised any other `JWTError`, so expiry
stays distinguishable inside the one error family. -/
theorem decode_fail_closed (s : Settings) (now : Int) (t : Token) :
    ((∃ p, decode_access_token s now t = Except.ok p ∧ p = t.payload ∧
        t.key = s.SECRET_KEY ∧ t.alg = s.ALGORITHM) ∨
      decode_access_token s now t = Except.error TokenDecodeError.expired ∨
      decode_access_token s now t = Except.error TokenDecodeError.invalid) ∧
    (decode_access_token s now t = Except.error TokenDecodeError.expired ↔
      jwt_decode t s.SECRET_KEY [s.ALGORITHM]
        (if pyTruthy s.JWT_AUDIENCE then s.JWT_AUDIENCE else none)
        (if pyTruthy s.JWT_ISSUER then s.JWT_ISSUER else none)
        (pyTruthy s.JWT_AUDIENCE) now
        = Except.error JoseError.expiredSignature) ∧
    (decode_access_token s now t = Except.error TokenDecodeError.invalid ↔
      jwt_decode t s.SECRET_KEY [s.ALGORITHM]
        (if pyTruthy s.JWT_AUDIENCE then s.JWT_AUDIENCE else none)
        (if pyTruthy s.JWT_ISSUER then s.JWT_ISSUER else none)
        (pyTruthy s.JWT_AUDIENCE) now
        = Except.error JoseError.jwtError) := by
  cases hj : jwt_decode t s.SECRET_KEY [s.ALGORITHM]
      (if pyTruthy s.JWT_AUDIENCE then s.JWT_AUDIENCE else none)
      (if pyTruthy s.JWT_ISSUER then s.JWT_ISSUER else none)
      (pyTruthy s.JWT_AUDIENCE) now with
  | ok p =>
    obtain ⟨hp, hkey, halg, -⟩ := jwt_decode_ok_inv t s.SECRET_KEY [s.ALGORITHM]
      (if pyTruthy s.JWT_AUDIENCE then s.JWT_AUDIENCE else none)
      (if pyTruthy s.JWT_ISSUER then s.JWT_ISSUER else none)
      (pyTruthy s.JWT_AUDIENCE) now p hj
    have hd : decode_access_token s now t = Except.ok p := by
      unfold decode_access_token
      rw [hj]
    refine ⟨Or.inl ⟨p, hd, hp, hkey, List.mem_singleton.mp halg⟩, ?_, ?_⟩ <;>
      rw [hd] <;> constructor <;> intro h <;> exact Except.noConfusion h
  | error e =>
    cases e with
    | expiredSignature =>
      have hd : decode_access_token s now t = Except.error TokenDecodeError.expired := by
        unfold decode_access_token
        rw [hj]
      refine ⟨Or.inr (Or.inl hd), ?_, ?_⟩
      · rw [hd]
        exact iff_of_true rfl rfl
      · rw [hd]
        constructor
        · intro h
          injection h with h
          exact TokenDecodeError.noConfusion h
        · intro h
          injection h with h
          exact JoseError.noConfusion h
    | jwtError =>
      have hd : decode_access_token s now t = Except.error TokenDecodeError.invalid := by
        unfold decode_access_token
        rw [hj]
      refine ⟨Or.inr (Or.inr hd), ?_, ?_⟩
      · rw [hd]
        constructor
        · intro h
          injection h with h
          exact TokenDecodeError.noConfusion h
        · intro h
          injection h with h
          exact JoseError.noConfusion h
      · rw [hd]
        exact iff_of_true rfl rfl

/-- C10: the service-computed standard claims always win over
caller-supplied entries: whatever `exp`, `iat`, `iss` or `aud` entries the
input mapping carries, the issued payload's `exp` is the service-computed
expiry, its `iat` is the issuance time, and (when configured) its `iss` and
`aud` are the configured issuer and audience — so a caller cannot extend a
token's lifetime or forge those claims through the input mapping. -/
theorem create_overwrites_standard_claims (s : Settings) (now : Int)
    (data : Claims) (ed : Option Int) :
    (create_access_token s now data ed).payload.get "exp"
        = some (ClaimVal.int (now + ed.getD (60 * s.ACCESS_TOKEN_EXPIRE_MINUTES))) ∧
    (create_access_token s now data ed).payload.get "iat"
        = some (ClaimVal.int now) ∧
    (pyTruthy s.JWT_ISSUER = true →
      (create_access_token s now data ed).payload.get "iss"
        = some (ClaimVal.str (s.JWT_ISSUER.getD ""))) ∧
    (pyTruthy s.JWT_AUDIENCE = true →
      (create_access_token s now data ed).payload.get "aud"
        = some (ClaimVal.str (s.JWT_AUDIENCE.getD ""))) :=
  ⟨create_payload_get_exp s now data ed, create_payload_get_iat s now data ed,
    create_payload_get_iss s now data ed, create_payload_get_aud s now data ed⟩

/-- A fully-configured settings value (issuer and audience set), as for the
planned B2C deployment. -/
def b2cSettings : Settings :=
  Settings.mk "k" "HS256" 30 (some "https://issuer.example") (some "patient-api")

/-- A claims mapping that tries to forge every standard claim. -/
def forgedData : Claims :=
  [("exp", ClaimVal.int 99999), ("iat", ClaimVal.int (-5)),
   ("iss", ClaimVal.str "attacker"), ("aud", ClaimVal.str "attacker")]

/-- Witness for `create_overwrites_standard_claims`: the forged entries are
all replaced by the service-computed values. -/
theorem create_overwrites_standard_claims_witness :
    (create_access_token b2cSettings 0 forgedData (some 120)).payload.get "exp"
        = some (ClaimVal.int 120) ∧
    (create_access_token b2cSettings 0 forgedData (some 120)).payload.get "iat"
        = some (ClaimVal.int 0) ∧
    (create_access_token b2cSettings 0 forgedData (some 120)).payload.get "iss"
        = some (ClaimVal.str "https://issuer.example") ∧
    (create_access_token b2cSettings 0 forgedData (some 120)).payload.get "aud"
        = some (ClaimVal.str "patient-api") :=
  ⟨(create_overwrites_standard_claims b2cSettings 0 forgedData (some 120)).1,
    (create_overwrites_standard_claims b2cSettings 0 forgedData (some 120)).2.1,
    (create_overwrites_standard_claims b2cSettings 0 forgedData (some 120)).2.2.1 rfl,
    (create_overwrites_standard_claims b2cSettings 0 forgedData (some 120)).2.2.2 rfl⟩

/-! ### The claim validators other than `validate_aud` never read `aud` -/

theorem validate_iat_set_aud (c : Claims) (v : ClaimVal) :
    validate_iat (c.set "aud" v) = validate_iat c := by
  unfold validate_iat
  rw [Claims.get_set, if_neg (by decide)]

theorem validate_nbf_set_aud (c : Claims) (now : Int) (v : ClaimVal) :
    validate_nbf (c.set "aud" v) now = validate_nbf c now := by
  unfold validate_nbf
  rw [Claims.get_set, if_neg (by decide)]

theorem validate_exp_set_aud (c : Claims) (now : Int) (v : ClaimVal) :
    validate_exp (c.set "aud" v) now = validate_exp c now := by
  unfold validate_exp
  rw [Claims.get_set, if_neg (by decide)]

theorem validate_iss_set_aud (c : Claims) (issuer : Option String) (v : ClaimVal) :
    validate_iss (c.set "aud" v) issuer = validate_iss c issuer := by
  unfold validate_iss
  rw [Claims.get_set, if_neg (by decide)]

theorem validate_sub_set_aud (c : Claims) (v : ClaimVal) :
    validate_sub (c.set "aud" v) = validate_sub c := by
  unfold validate_sub
  rw [Claims.get_set, if_neg (by decide)]

theorem validate_jti_set_aud (c : Claims) (v : ClaimVal) :
    validate_jti (c.set "aud" v) = validate_jti c := by
  unfold validate_jti
  rw [Claims.get_set, if_neg (by decide)]

theorem validate_at_hash_set_aud (c : Claims) (v : ClaimVal) :
    validate_at_hash (c.set "aud" v) = validate_at_hash c := by
  unfold validate_at_hash
  rw [Claims.get_set, if_neg (by decide)]

/-- With audience verification off, overwriting the `aud` claim changes only
the returned payload, never whether decoding succeeds. -/
theorem jwt_decode_ignores_aud (t : Token) (key : String)
    (algorithms : List String) (audience : Option String)
    (issuer : Option String) (now : Int) (v : ClaimVal) :
    jwt_decode (Token.mk (t.payload.set "aud" v) t.key t.alg) key algorithms
        audience issuer false now
      = Except.map (fun _ => t.payload.set "aud" v)
          (jwt_decode t key algorithms audience issuer false now) := by
  unfold jwt_decode
  by_cases hc : t.key = key ∧ t.alg ∈ algorithms
  · rw [if_pos hc, if_pos hc]
    rw [validate_iat_set_aud, validate_nbf_set_aud, validate_exp_set_aud,
      validate_iss_set_aud, validate_sub_set_aud, validate_jti_set_aud,
      validate_at_hash_set_aud]
    cases validate_iat t.payload with
    | error e => rfl
    | ok u =>
      cases validate_nbf t.payload now with
      | error e => rfl
      | ok u =>
        cases validate_exp t.payload now with
        | error e => rfl
        | ok u =>
          cases validate_iss t.payload issuer with
          | error e => rfl
          | ok u =>
            cases validate_sub t.payload with
            | error e => rfl
            | ok u =>
              cases validate_jti t.payload with
              | error e => rfl
              | ok u =>
                cases validate_at_hash t.payload with
                | error e => rfl
                | ok u => rfl
  · rw [if_neg hc, if_neg hc]
    rfl

/-- `decode_access_token` succeeds exactly when the underlying jose decode
succeeds. -/
theorem decode_isOk_iff (s : Settings) (now : Int) (u : Token) :
    (∃ p, decode_access_token s now u = Except.ok p) ↔
    (∃ p, jwt_decode u s.SECRET_KEY [s.ALGORITHM]
      (if pyTruthy s.JWT_AUDIENCE then s.JWT_AUDIENCE else none)
      (if pyTruthy s.JWT_ISSUER then s.JWT_ISSUER else none)
      (pyTruthy s.JWT_AUDIENCE) now = Except.ok p) := by
  unfold decode_access_token
  cases jwt_decode u s.SECRET_KEY [s.ALGORITHM]
      (if pyTruthy s.JWT_AUDIENCE then s.JWT_AUDIENCE else none)
      (if pyTruthy s.JWT_ISSUER then s.JWT_ISSUER else none)
      (pyTruthy s.JWT_AUDIENCE) now with
  | ok p => simp
  | error e => cases e <;> simp

/-- C7 (amended): when an audience is configured, `decode_access_token`
rejects any token that carries an audience claim different from the
configured one; however a token carrying NO audience claim is not rejected,
because the jose library skips the audience check when the claim is absent.
When no audience is configured the audience claim is not inspected at all:
overwriting it with an arbitrary value never changes whether validation
succeeds. -/
theorem audience_enforcement (s : Settings) (now : Int) (t : Token) :
    (pyTruthy s.JWT_AUDIENCE = true →
      ∀ v, t.payload.get "aud" = some v →
        v ≠ ClaimVal.str (s.JWT_AUDIENCE.getD "") →
        ∃ e, decode_access_token s now t = Except.error e) ∧
    (pyTruthy s.JWT_AUDIENCE = false → ∀ v,
      ((∃ p, decode_access_token s now
          (Token.mk (t.payload.set "aud" v) t.key t.alg) = Except.ok p) ↔
        (∃ p, decode_access_token s now t = Except.ok p))) := by
  constructor
  · intro hva v hv hne
    cases hdec : decode_access_token s now t with
    | error e => exact ⟨e, rfl⟩
    | ok p =>
      exfalso
      unfold decode_access_token at hdec
      cases hj : jwt_decode t s.SECRET_KEY [s.ALGORITHM]
          (if pyTruthy s.JWT_AUDIENCE then s.JWT_AUDIENCE else none)
          (if pyTruthy s.JWT_ISSUER then s.JWT_ISSUER else none)
          (pyTruthy s.JWT_AUDIENCE) now with
      | error e =>
        rw [hj] at hdec
        cases e <;> exact Except.noConfusion hdec
      | ok q =>
        obtain ⟨-, -, -, -, -, -, haud, -, -, -, -⟩ :=
          jwt_decode_ok_inv t s.SECRET_KEY [s.ALGORITHM]
            (if pyTruthy s.JWT_AUDIENCE then s.JWT_AUDIENCE else none)
            (if pyTruthy s.JWT_ISSUER then s.JWT_ISSUER else none)
            (pyTruthy s.JWT_AUDIENCE) now q hj
        have haud2 := haud hva
        rw [if_pos hva] at haud2
        unfold validate_aud at haud2
        rw [hv] at haud2
        cases v with
        | int n => exact Except.noConfusion haud2
        | str x =>
          by_cases hax : s.JWT_AUDIENCE = some x
          · apply hne
            rw [hax]
            rfl
          · simp [hax] at haud2
  · intro hva v
    have hA : (if pyTruthy s.JWT_AUDIENCE then s.JWT_AUDIENCE else none) = none := by
      simp [hva]
    rw [decode_isOk_iff, decode_isOk_iff, hA, hva]
    rw [jwt_decode_ignores_aud]
    cases jwt_decode t s.SECRET_KEY [s.ALGORITHM] none
        (if pyTruthy s.JWT_ISSUER then s.JWT_ISSUER else none) false now with
    | error e => simp [Except.map]
    | ok q => simp [Except.map]

/-- Settings with an audience configured but no issuer. -/
def audSettings : Settings := Settings.mk "k" "HS256" 30 none (some "patient-api")

/-- The same deployment before the audience was configured. -/
def noAudSettings : Settings := Settings.mk "k" "HS256" 30 none none

/-- C7 counterexample to the claim as stated: a token issued WITHOUT any
audience claim (same key and algorithm, audience not configured at issue
time) is accepted by `decode_access_token` under settings that do configure
an audience — the jose library skips the audience check when the claim is
absent, so such a token does not fail validation. -/
theorem audience_missing_counterexample :
    ∃ p, decode_access_token audSettings 0
      (create_access_token noAudSettings 0 [("sub", ClaimVal.str "alice")] none)
      = Except.ok p :=
  ⟨_, rfl⟩

/-- Witness for `audience_enforcement`: with audience configured, a token
bearing a different audience claim is rejected. -/
theorem audience_enforcement_witness :
    pyTruthy audSettings.JWT_AUDIENCE = true ∧
      ∃ e, decode_access_token audSettings 0
        (Token.mk [("aud", ClaimVal.str "other-api")] "k" "HS256")
        = Except.error e :=
  ⟨rfl, (audience_enforcement audSettings 0
      (Token.mk [("aud", ClaimVal.str "other-api")] "k" "HS256")).1 rfl
      (ClaimVal.str "other-api") rfl (by decide)⟩

/-! ## The "copy, do not mutate" discipline of `create_access_token` (C9)

Lean values are immutable, so to state that the Python function leaves the
caller's dict untouched the dict heap is made explicit: a store maps
addresses to dict contents, `data.copy()` allocates a fresh address holding
the same contents, and every subsequent `to_encode[...] = ...` statement is
a write to that fresh address. -/

/-- A heap of Python dicts; `next` is the next fresh address. -/
structure Store where
  mem : Nat → Claims
  next : Nat

/-- Dereference a dict address. -/
def Store.read (σ : Store) (a : Nat) : Claims := σ.mem a

/-- In-place update of the dict at address `a`. -/
def Store.write (σ : Store) (a : Nat) (c : Claims) : Store :=
  Store.mk (fun b => if b = a then c else σ.mem b) σ.next

/-- Allocate a fresh dict holding `c`; returns the new store and the fresh
address. -/
def Store.alloc (σ : Store) (c : Claims) : Store × Nat :=
  (Store.mk (fun b => if b = σ.next then c else σ.mem b) (σ.next + 1), σ.next)

/-- `create_access_token` with the dict heap explicit: `to_encode =
data.copy()` allocates, and the `sub` coercion, the `update` with the
standard claims, and the optional `iss`/`aud` insertions all write to the
copy's address. Returns the token and the final heap. -/
def create_access_token_heap (s : Settings) (now : Int) (s0 : Store)
    (data : Nat) (expires_delta : Option Int) : Token × Store :=
  let al := s0.alloc (s0.read data)
  let s1 := al.1
  let to_encode := al.2
  let s2 :=
    match (s1.read to_encode).get "sub" with
    | some v =>
      s1.write to_encode ((s1.read to_encode).set "sub" (ClaimVal.str v.pyStr))
    | none => s1
  let delta := expires_delta.getD (60 * s.ACCESS_TOKEN_EXPIRE_MINUTES)
  let expire := now + delta
  let s3 := s2.write to_encode
    (((s2.read to_encode).set "exp" (ClaimVal.int expire)).set "iat" (ClaimVal.int now))
  let s4 :=
    if pyTruthy s.JWT_ISSUER then
      s3.write to_encode
        ((s3.read to_encode).set "iss" (ClaimVal.str (s.JWT_ISSUER.getD "")))
    else s3
  let s5 :=
    if pyTruthy s.JWT_AUDIENCE then
      s4.write to_encode
        ((s4.read to_encode).set "aud" (ClaimVal.str (s.JWT_AUDIENCE.getD "")))
    else s4
  (jwt_encode (s5.read to_encode) s.SECRET_KEY s.ALGORITHM, s5)

/-- C9: `create_access_token` never mutates the caller's claims dict: after
the call the dict at the caller's address is unchanged, and the issued token
is exactly the pure function of the dict's (unchanged) contents — all
mutation happens on the fresh copy. -/
theorem create_no_mutation (s : Settings) (now : Int) (s0 : Store) (data : Nat)
    (ed : Option Int) (h : data < s0.next) :
    (create_access_token_heap s now s0 data ed).2.read data = s0.read data ∧
    (create_access_token_heap s now s0 data ed).1
      = create_access_token s now (s0.read data) ed := by
  have hne : data ≠ s0.next := Nat.ne_of_lt h
  refine ⟨?_, ?_⟩
  · unfold create_access_token_heap
    simp [Store.alloc, Store.read, Store.write, hne]
    split_ifs <;> split <;> simp [hne]
  · unfold create_access_token_heap create_access_token
    simp only [Store.read]
    cases hsub : (s0.mem data).get "sub" with
    | none =>
      simp [Store.alloc, Store.write, Store.read, jwt_encode, hsub, hne]
      split_ifs <;> simp
    | some v =>
      simp [Store.alloc, Store.write, Store.read, jwt_encode, hsub, hne]
      split_ifs <;> simp

/-- A one-dict heap for the witness. -/
def heapData : Claims := [("sub", ClaimVal.int 7)]

/-- Witness for `create_no_mutation` on a concrete one-dict heap. -/
theorem create_no_mutation_witness :
    (0 : Nat) < 1 ∧
      ((create_access_token_heap defaultSettings 0
          (Store.mk (fun _ => heapData) 1) 0 none).2.read 0
        = (Store.mk (fun _ => heapData) 1).read 0 ∧
      (create_access_token_heap defaultSettings 0
          (Store.mk (fun _ => heapData) 1) 0 none).1
        = create_access_token defaultSettings 0
            ((Store.mk (fun _ => heapData) 1).read 0) none) :=
  ⟨by decide, create_no_mutation defaultSettings 0
    (Store.mk (fun _ => heapData) 1) 0 none (by decide)⟩

/-! ## Authentication backends (`app/core/auth_backend.py`, `app/crud_user.py`) -/

/-- A row of the `users` table (`app/models.py`): the fields the
authentication core reads. -/
structure User where
  id : Nat
  email : String
  hashed_password : StoredHash

/-- `schemas.LoginSchema`: the login payload. -/
structure LoginSchema where
  email : String
  password : String

/-- `crud_user.get_user_by_email`: the first row whose email matches. -/
def get_user_by_email (db : List User) (email : String) : Option User :=
  db.find? (fun u => u.email == email)

/-- `DatabaseAuthBackend.authenticate`: look the user up by email; if absent
return `None`; otherwise verify the presented password against the stored
hash and return the user only on success. An exception raised by
`verify_password` would propagate (none can occur, by
`verify_password_isOk`). -/
def DatabaseAuthBackend_authenticate (db : List User)
    (credentials : LoginSchema) : Except PyError (Option User) :=
  match get_user_by_email db credentials.email with
  | none => .ok none
  | some user =>
    match verify_password credentials.password user.hashed_password none with
    | .error e => .error e
    | .ok (valid, _) => if !valid then .ok none else .ok (some user)

/-- `AzureB2CAuthBackend.authenticate`: raises `NotImplementedError`. -/
def AzureB2CAuthBackend_authenticate (_db : List User)
    (_credentials : LoginSchema) : Except PyError (Option User) :=
  .error .notImplementedError

/-- The backend objects the dispatcher can receive. -/
inductive AuthBackendKind
  | databaseBackend
  | azureB2CBackend
deriving DecidableEq

/-- Method dispatch on a backend object. -/
def AuthBackendKind.run :
    AuthBackendKind → List User → LoginSchema → Except PyError (Option User)
  | .databaseBackend, db, c => DatabaseAuthBackend_authenticate db c
  | .azureB2CBackend, db, c => AzureB2CAuthBackend_authenticate db c

/-- The `authenticate` dispatcher from `app/core/auth_backend.py`: defaults
to `DatabaseAuthBackend` when no backend is supplied. -/
def authenticate (db : List User) (credentials : LoginSchema)
    (backend : Option AuthBackendKind) : Except PyError (Option User) :=
  (match backend with
   | none => AuthBackendKind.databaseBackend
   | some b => b).run db credentials

theorem DatabaseAuthBackend_authenticate_found (db : List User)
    (credentials : LoginSchema) (u : User)
    (hu : get_user_by_email db credentials.email = some u) :
    DatabaseAuthBackend_authenticate db credentials
      = match verify_password credentials.password u.hashed_password none with
        | .error e => .error e
        | .ok (valid, _) => if !valid then .ok none else .ok (some u) := by
  unfold DatabaseAuthBackend_authenticate
  rw [hu]

/-- C8: with no backend supplied the dispatcher uses the database-backed
strategy; it returns an identity record exactly when the email lookup finds
that record and password verification succeeds against its stored hash; and
the unknown-email and wrong-password failures both produce the literally
identical `Ok None` outcome, so the two causes are indistinguishable to the
caller. -/
theorem authenticate_default_database (db : List User)
    (credentials : LoginSchema) :
    authenticate db credentials none
        = DatabaseAuthBackend_authenticate db credentials ∧
    (∀ u, authenticate db credentials none = Except.ok (some u) ↔
      (get_user_by_email db credentials.email = some u ∧
        ∃ b, verify_password credentials.password u.hashed_password none
          = Except.ok (true, b))) ∧
    (get_user_by_email db credentials.email = none →
      authenticate db credentials none = Except.ok none) ∧
    (∀ u b, get_user_by_email db credentials.email = some u →
      verify_password credentials.password u.hashed_password none
        = Except.ok (false, b) →
      authenticate db credentials none = Except.ok none) := by
  have hd : authenticate db credentials none
      = DatabaseAuthBackend_authenticate db credentials := rfl
  refine ⟨hd, ?_, ?_, ?_⟩
  · intro u
    rw [hd]
    cases hu : get_user_by_email db credentials.email with
    | none =>
      have hl : DatabaseAuthBackend_authenticate db credentials = Except.ok none := by
        unfold DatabaseAuthBackend_authenticate
        rw [hu]
      rw [hl]
      constructor
      · intro hcontra
        exact absurd (Except.ok.inj hcontra) (by simp)
      · rintro ⟨hcontra, -⟩
        exact Option.noConfusion hcontra
    | some w =>
      cases hv : verify_password credentials.password w.hashed_password none with
      | error e =>
        have hl : DatabaseAuthBackend_authenticate db credentials = Except.error e := by
          rw [DatabaseAuthBackend_authenticate_found db credentials w hu, hv]
        rw [hl]
        constructor
        · intro hcontra
          exact Except.noConfusion hcontra
        · rintro ⟨huw, b, hvb⟩
          injection huw with huw
          subst huw
          rw [hv] at hvb
          exact Except.noConfusion hvb
      | ok r =>
        obtain ⟨valid, rh⟩ := r
        cases valid with
        | true =>
          have hl : DatabaseAuthBackend_authenticate db credentials
              = Except.ok (some w) := by
            rw [DatabaseAuthBackend_authenticate_found db credentials w hu, hv]
            rfl
          rw [hl]
          constructor
          · intro hok
            have hou := Except.ok.inj hok
            injection hou with hou
            subst hou
            exact ⟨rfl, rh, hv⟩
          · rintro ⟨huw, -⟩
            injection huw with huw
            subst huw
            rfl
        | false =>
          have hl : DatabaseAuthBackend_authenticate db credentials
              = Except.ok none := by
            rw [DatabaseAuthBackend_authenticate_found db credentials w hu, hv]
            rfl
          rw [hl]
          constructor
          · intro hcontra
            exact absurd (Except.ok.inj hcontra) (by simp)
          · rintro ⟨huw, b, hvb⟩
            injection huw with huw
            subst huw
            rw [hv] at hvb
            have h2 := Except.ok.inj hvb
            injection h2 with h3 h4
            exact Bool.noConfusion h3
  · intro hu
    rw [hd]
    unfold DatabaseAuthBackend_authenticate
    rw [hu]
  · intro u b hu hv
    rw [hd]
    rw [DatabaseAuthBackend_authenticate_found db credentials u hu, hv]
    rfl

/-- The registered user for the witness database. -/
def aliceUser : User := User.mk 1 "alice@example.com" (hash_password "pw123")

/-- Witness for `authenticate_default_database`: the right credentials
authenticate; a wrong password and an unknown email both yield `Ok None`. -/
theorem authenticate_default_database_witness :
    authenticate [aliceUser] (LoginSchema.mk "alice@example.com" "pw123") none
      = Except.ok (some aliceUser) ∧
    authenticate [aliceUser] (LoginSchema.mk "alice@example.com" "wrong") none
      = Except.ok none ∧
    authenticate [aliceUser] (LoginSchema.mk "bob@example.com" "pw123") none
      = Except.ok none :=
  ⟨((authenticate_default_database [aliceUser]
      (LoginSchema.mk "alice@example.com" "pw123")).2.1 aliceUser).mpr
      ⟨rfl, false, rfl⟩,
    (authenticate_default_database [aliceUser]
      (LoginSchema.mk "alice@example.com" "wrong")).2.2.2 aliceUser false rfl rfl,
    (authenticate_default_database [aliceUser]
      (LoginSchema.mk "bob@example.com" "pw123")).2.2.1 rfl⟩
